import Mathlib

/-!
Verification of the schedule reconciliation engine of `scheduler.py`
(aranet4-data-saver).

The Python source is shallowly embedded: each function of the source that
the claims mention is translated into a pure Lean function.  External state
(the per-user cron table, the per-user `LaunchAgents` files, the Windows
batch file) is modelled by an explicit `World` record threaded through the
functions; subprocess effects (`crontab -`, `launchctl load`,
`launchctl unload`) are recorded as fields of the result structures, with
the success of `launchctl load` supplied as an oracle parameter `loadOk`.
Python string primitives (`in`, `strip`, `lower`, `splitlines`,
`replace`, `os.path.dirname`, `os.path.join`) are modelled over `List Char`
with Python semantics.
-/

namespace Scheduler

/-- Python's substring test `pat in s`, modelled as list infix on the
character data. -/
def strContains (s pat : String) : Bool := decide (pat.data <:+: s.data)

/-- Characters Python's `str.strip()` removes (ASCII whitespace). -/
def isPySpace (c : Char) : Bool :=
  c = ' ' ∨ c = '\t' ∨ c = '\n' ∨ c = '\x0d' ∨ c = '\x0b' ∨ c = '\x0c'

/-- Python's `str.strip()`: drop leading and trailing whitespace. -/
def pyStrip (s : String) : String :=
  ⟨((s.data.dropWhile isPySpace).reverse.dropWhile isPySpace).reverse⟩

/-- Python's `str.lower()` (ASCII). -/
def pyLower (s : String) : String := ⟨s.data.map Char.toLower⟩

/-- Helper for `pySplitlines`: split at newline characters, accumulating
the current line in reverse. -/
def splitlinesGo : List Char → List Char → List String
  | [], [] => []
  | [], acc => [⟨acc.reverse⟩]
  | '\n' :: rest, acc => ⟨acc.reverse⟩ :: splitlinesGo rest []
  | c :: rest, acc => splitlinesGo rest (c :: acc)

/-- Python's `str.splitlines()` (newline-only variant; the cron table uses
`\n` separators): no trailing empty line is produced for a trailing
newline, and the empty string yields `[]`. -/
def pySplitlines (s : String) : List String := splitlinesGo s.data []

/-- Python's `s.replace("/", "\\")` as used for Windows paths: the
pattern and replacement are single characters, so this is a map. -/
def pyReplaceSlash (s : String) : String :=
  ⟨s.data.map (fun c => if c = '/' then '\\' else c)⟩

/-- `os.path.dirname` (POSIX): everything before the last `/`, with
trailing slashes stripped unless the head is all slashes. -/
def dirname (p : String) : String :=
  let cs := p.data
  let base := cs.reverse.takeWhile (fun c => c ≠ '/')
  let head := cs.take (cs.length - base.length)
  if head.all (fun c => c = '/') then ⟨head⟩
  else ⟨(head.reverse.dropWhile (fun c => c = '/')).reverse⟩

/-- `os.path.join a b` (POSIX, two arguments). -/
def joinPath (a b : String) : String :=
  if b.data.head? = some '/' then b
  else if a = "" then b
  else if a.data.getLast? = some '/' then a ++ b
  else a ++ "/" ++ b

/-! ## The crontab reconciler (`setup_cron`, scheduler.py lines 31-93) -/

/-- The `for line in current_crontab.splitlines()` loop of `setup_cron`
(lines 56-67): returns the accumulated `new_crontab_lines` and the
`has_existing_job` flag.  `jl` is `job_line`, `pat` is
`old_job_pattern` (a space followed by the script path). -/
def cronLoop (jl pat : String) : List String → List String × Bool
  | [] => ([], false)
  | line :: rest =>
    let r := cronLoop jl pat rest
    if strContains line pat = true ∧ line ≠ jl then (jl :: r.1, true)
    else if line = jl then (line :: r.1, true)
    else if (pyStrip line).isEmpty = false then (line :: r.1, r.2)
    else r

/-- Result of one `setup_cron` run: the computed `new_crontab_lines`, the
`has_existing_job` flag, and whether `crontab -` was invoked to persist
the new table (`wrote = false` corresponds to the early
`return` after "Cron job already exists with the correct settings."). -/
structure CronResult where
  lines : List String
  hasExisting : Bool
  wrote : Bool
deriving DecidableEq

/-- `setup_cron(script_path, time_str)` applied to the current cron table
(already split into lines, as the source iterates over
`current_crontab.splitlines()`).  Follows scheduler.py lines 48-84:
the loop, then the append when no existing job was found, then the early
return when `job_line` is already among the new lines, else the write. -/
def setup_cron (script_path time_str : String) (current : List String) : CronResult :=
  let job_line := time_str ++ " " ++ script_path
  let old_job_pattern := " " ++ script_path
  let r := cronLoop job_line old_job_pattern current
  if r.2 = false then ⟨r.1 ++ [job_line], false, true⟩
  else if job_line ∈ r.1 then ⟨r.1, true, false⟩
  else ⟨r.1, true, true⟩

/-- The cron table that is actually persisted after a `setup_cron` run:
the new lines when `crontab -` was invoked, the unchanged input table
otherwise. -/
def persistedTable (script_path time_str : String) (current : List String) : List String :=
  let r := setup_cron script_path time_str current
  if r.wrote then r.lines else current

/-! ## Basic lemmas about `strContains` -/

theorem strContains_iff {s pat : String} : strContains s pat = true ↔ pat.data <:+: s.data :=
  decide_eq_true_iff

theorem strContains_of_parts (a b c s : String) (h : a ++ b ++ c = s) :
    strContains s b = true := by
  rw [strContains_iff]
  exact ⟨a.data, c.data, by rw [← h]; simp [String.data_append]⟩

/-- The desired job line `time ++ " " ++ path` always contains the match
pattern `" " ++ path`. -/
theorem jobLine_contains_pattern (p t : String) :
    strContains (t ++ " " ++ p) (" " ++ p) = true := by
  rw [strContains_iff]
  exact ⟨t.data, [], by simp [String.data_append]⟩

/-- The desired job line always contains the bare target path. -/
theorem jobLine_contains_path (p t : String) :
    strContains (t ++ " " ++ p) p = true := by
  rw [strContains_iff]
  exact ⟨(t ++ " ").data, [], by simp [String.data_append]⟩

/-- A line containing `" " ++ p` contains `p`. -/
theorem strContains_path_of_pattern {l p : String}
    (h : strContains l (" " ++ p) = true) : strContains l p = true := by
  rw [strContains_iff] at h ⊢
  exact List.IsInfix.trans ⟨" ".data, [], by simp [String.data_append]⟩ h

/-! ## Structural lemmas about the crontab loop -/

/-- The `has_existing_job` flag is set exactly when some input line
contains the match pattern (the desired job line itself contains it). -/
theorem cronLoop_any (jl pat : String) (hjl : strContains jl pat = true) :
    ∀ cur : List String,
      (cronLoop jl pat cur).2 = cur.any (fun l => strContains l pat) := by
  intro cur
  induction cur with
  | nil => rfl
  | cons line rest ih =>
    simp only [cronLoop, List.any_cons]
    by_cases h1 : strContains line pat = true ∧ line ≠ jl
    · rw [if_pos h1]
      simp [h1.1]
    · rw [if_neg h1]
      by_cases h2 : line = jl
      · rw [if_pos h2]
        simp [h2 ▸ hjl]
      · rw [if_neg h2]
        have hnc : strContains line pat = false := by
          have := fun hA => h1 ⟨hA, h2⟩
          simpa using this
        by_cases h3 : (pyStrip line).isEmpty = false
        · rw [if_pos h3]
          simp [hnc, ih]
        · rw [if_neg h3]
          simp [hnc, ih]

/-- The loop preserves the number of lines matching the pattern: each
matching input line yields exactly one matching output line. -/
theorem cronLoop_countP (jl pat : String) (hjl : strContains jl pat = true) :
    ∀ cur : List String,
      (cronLoop jl pat cur).1.countP (fun l => strContains l pat)
        = cur.countP (fun l => strContains l pat) := by
  intro cur
  induction cur with
  | nil => rfl
  | cons line rest ih =>
    simp only [cronLoop]
    by_cases h1 : strContains line pat = true ∧ line ≠ jl
    · rw [if_pos h1]
      simp [List.countP_cons, hjl, h1.1, ih]
    · rw [if_neg h1]
      by_cases h2 : line = jl
      · rw [if_pos h2]
        simp [List.countP_cons, h2 ▸ hjl, h2, ih]
      · rw [if_neg h2]
        have hnc : strContains line pat = false := by
          have := fun hA => h1 ⟨hA, h2⟩
          simpa using this
        by_cases h3 : (pyStrip line).isEmpty = false
        · rw [if_pos h3]
          simp [List.countP_cons, hnc, ih]
        · rw [if_neg h3]
          simp [List.countP_cons, hnc, ih]

/-- Lines rejected by a predicate `q` that rejects the desired line and
every pattern-matching line pass through the loop exactly when they are
non-blank, in their original order. -/
theorem cronLoop_filter (jl pat : String) (q : String → Bool)
    (hq1 : q jl = false)
    (hq2 : ∀ l, strContains l pat = true → q l = false) :
    ∀ cur : List String,
      (cronLoop jl pat cur).1.filter q
        = cur.filter (fun l => q l && !(pyStrip l).isEmpty) := by
  intro cur
  induction cur with
  | nil => rfl
  | cons line rest ih =>
    simp only [cronLoop]
    by_cases h1 : strContains line pat = true ∧ line ≠ jl
    · rw [if_pos h1]
      simp [List.filter_cons, hq1, hq2 line h1.1, ih]
    · rw [if_neg h1]
      by_cases h2 : line = jl
      · rw [if_pos h2]
        subst h2
        simp [List.filter_cons, hq1, ih]
      · rw [if_neg h2]
        by_cases h3 : (pyStrip line).isEmpty = false
        · rw [if_pos h3]
          cases hq : q line with
          | false => simp [List.filter_cons, hq, ih]
          | true => simp [List.filter_cons, hq, h3, ih]
        · rw [if_neg h3]
          have h3' : (pyStrip line).isEmpty = true := by
            simpa using h3
          simp [List.filter_cons, h3', ih]

/-! ## Claim theorems for the crontab reconciler -/

/-- C1.  Upsert is computed but never persisted: on a table whose single
line references the target path with a different trigger time, `setup_cron`
computes the correctly updated table in memory (`lines`), but because the
updated line now equals `job_line`, the `elif job_line in new_crontab_lines`
branch fires and the function returns before invoking `crontab -`
(`wrote = false`); the persisted table keeps the stale line.  This
contradicts the function's own "Updating existing cron job" message and
leaves the dead "Successfully updated cron job" success path unreachable. -/
theorem cron_upsert_not_persisted :
    setup_cron "/opt/job/run" "30 1 * * *" ["0 0 * * * /opt/job/run"]
        = ⟨["30 1 * * * /opt/job/run"], true, false⟩ ∧
    persistedTable "/opt/job/run" "30 1 * * *" ["0 0 * * * /opt/job/run"]
        = ["0 0 * * * /opt/job/run"] := by
  decide

/-- C2 (counterexample).  On a table with two distinct lines referencing
the target path, the table `setup_cron` produces contains two lines
matching the reconciler's pattern (a space followed by the target path),
violating the at-most-one-entry invariant; moreover no write occurs, so
the persisted table also keeps both referencing lines. -/
theorem cron_two_matching_lines_duplicated :
    (setup_cron "/opt/job/run" "30 1 * * *"
        ["0 0 * * * /opt/job/run", "15 2 * * * /opt/job/run"]).lines.countP
        (fun l => strContains l " /opt/job/run") = 2 ∧
    (setup_cron "/opt/job/run" "30 1 * * *"
        ["0 0 * * * /opt/job/run", "15 2 * * * /opt/job/run"]).wrote = false ∧
    (persistedTable "/opt/job/run" "30 1 * * *"
        ["0 0 * * * /opt/job/run", "15 2 * * * /opt/job/run"]).countP
        (fun l => strContains l " /opt/job/run") = 2 := by
  decide

/-- Every line the loop emits that matches the pattern is exactly the
desired job line: matching input lines are replaced by it (or already
equal it), and non-matching lines stay non-matching. -/
theorem cronLoop_matching (jl pat : String) :
    ∀ cur : List String, ∀ l ∈ (cronLoop jl pat cur).1,
      strContains l pat = true → l = jl := by
  intro cur
  induction cur with
  | nil =>
    intro l hl
    cases hl
  | cons line rest ih =>
    simp only [cronLoop]
    by_cases h1 : strContains line pat = true ∧ line ≠ jl
    · rw [if_pos h1]
      intro l hl hm
      rcases List.mem_cons.mp hl with h | h
      · exact h
      · exact ih l h hm
    · rw [if_neg h1]
      by_cases h2 : line = jl
      · rw [if_pos h2]
        intro l hl hm
        rcases List.mem_cons.mp hl with h | h
        · exact h.trans h2
        · exact ih l h hm
      · rw [if_neg h2]
        have hnc : strContains line pat = false := by
          have := fun hA => h1 ⟨hA, h2⟩
          simpa using this
        by_cases h3 : (pyStrip line).isEmpty = false
        · rw [if_pos h3]
          intro l hl hm
          rcases List.mem_cons.mp hl with h | h
          · rw [h] at hm
            rw [hnc] at hm
            cases hm
          · exact ih l h hm
        · rw [if_neg h3]
          intro l hl hm
          exact ih l hl hm

/-- C2 (amended).  The at-most-one invariant fails for inputs with two
or more lines matching the reconciler's pattern (a space followed by the
target path); what holds for every input table is: (i) every foreign
line (one not matching the pattern) appears in the produced table
verbatim and in its original order, with exactly the blank lines
dropped; (ii) every produced line that matches the pattern is exactly
the desired line; (iii) the number of matching lines in the produced
table is the number of matching input lines, or 1 when the input has
none.  Hence the produced table has at most one matching line exactly
when the input does, and an input with k ≥ 2 matching lines yields k
copies of the desired line. -/
theorem cron_at_most_one_entry (p t : String) (cur : List String) :
    (setup_cron p t cur).lines.filter (fun l => !(strContains l (" " ++ p)))
      = cur.filter (fun l => !(strContains l (" " ++ p)) && !(pyStrip l).isEmpty) ∧
    (setup_cron p t cur).lines.all
      (fun l => !(strContains l (" " ++ p)) || (l == t ++ " " ++ p)) = true ∧
    (setup_cron p t cur).lines.countP (fun l => strContains l (" " ++ p))
      = max (cur.countP (fun l => strContains l (" " ++ p))) 1 := by
  have hjl := jobLine_contains_pattern p t
  have hcount := cronLoop_countP (t ++ " " ++ p) (" " ++ p) hjl cur
  have hfilter := cronLoop_filter (t ++ " " ++ p) (" " ++ p)
      (fun l => !(strContains l (" " ++ p)))
      (by simp [hjl]) (by intro l hl; simp [hl]) cur
  have hmatch := cronLoop_matching (t ++ " " ++ p) (" " ++ p) cur
  have hany := cronLoop_any (t ++ " " ++ p) (" " ++ p) hjl cur
  have hall : ∀ ls : List String,
      (∀ l ∈ ls, strContains l (" " ++ p) = true → l = t ++ " " ++ p) →
      ls.all (fun l => !(strContains l (" " ++ p)) || (l == t ++ " " ++ p)) = true := by
    intro ls hls
    rw [List.all_eq_true]
    intro l hl
    cases hc : strContains l (" " ++ p) with
    | false => simp [hc]
    | true => simp [hc, hls l hl hc]
  unfold setup_cron
  by_cases hhas : (cronLoop (t ++ " " ++ p) (" " ++ p) cur).2 = false
  · rw [if_pos hhas]
    have hzero : cur.countP (fun l => strContains l (" " ++ p)) = 0 := by
      have hany0 := hany
      rw [hhas] at hany0
      rw [List.countP_eq_zero]
      intro a ha
      intro hc
      have : cur.any (fun l => strContains l (" " ++ p)) = true :=
        List.any_eq_true.mpr ⟨a, ha, hc⟩
      rw [← hany0] at this
      exact absurd this (by simp)
    refine ⟨?_, ?_, ?_⟩
    · simp only [List.filter_append, hfilter]
      simp [List.filter_cons, hjl]
    · apply hall
      intro l hl hm
      rcases List.mem_append.mp hl with h | h
      · exact hmatch l h hm
      · simpa using h
    · simp only [List.countP_append, hcount, hzero]
      simp [List.countP_cons, hjl]
  · have hpos : 0 < cur.countP (fun l => strContains l (" " ++ p)) := by
      have hany1 : cur.any (fun l => strContains l (" " ++ p)) = true := by
        rw [← hany]
        simpa using hhas
      obtain ⟨a, ha, hc⟩ := List.any_eq_true.mp hany1
      exact List.countP_pos_iff.mpr ⟨a, ha, hc⟩
    have hmax : max (cur.countP (fun l => strContains l (" " ++ p))) 1
        = cur.countP (fun l => strContains l (" " ++ p)) :=
      Nat.max_eq_left hpos
    rw [if_neg hhas]
    by_cases hmem : (t ++ " " ++ p) ∈ (cronLoop (t ++ " " ++ p) (" " ++ p) cur).1
    · rw [if_pos hmem]
      exact ⟨hfilter, hall _ hmatch, by rw [hcount, hmax]⟩
    · rw [if_neg hmem]
      exact ⟨hfilter, hall _ hmatch, by rw [hcount, hmax]⟩

/-- C3.  Idempotence on an initially empty cron table: the first run
persists exactly the single desired line; running the same spec again
leaves the persisted table identical, reports the job as already existing
(`hasExisting = true`), and performs no write (`wrote = false`). -/
theorem cron_idempotent_on_empty (p t : String) :
    persistedTable p t [] = [t ++ " " ++ p] ∧
    (setup_cron p t (persistedTable p t [])).hasExisting = true ∧
    (setup_cron p t (persistedTable p t [])).wrote = false ∧
    persistedTable p t (persistedTable p t []) = persistedTable p t [] := by
  have h1 : persistedTable p t [] = [t ++ " " ++ p] := by
    simp [persistedTable, setup_cron, cronLoop]
  refine ⟨h1, ?_, ?_, ?_⟩ <;>
    simp [h1, persistedTable, setup_cron, cronLoop]

/-- C5.  Foreign-line preservation: for every input table and spec, the
lines of the output that do not contain the target path are exactly the
non-blank input lines not containing the target path, verbatim and in
their original order (so only blank lines are ever dropped). -/
theorem cron_foreign_lines_preserved (p t : String) (cur : List String) :
    (setup_cron p t cur).lines.filter (fun l => !(strContains l p))
      = cur.filter (fun l => !(strContains l p) && !(pyStrip l).isEmpty) := by
  have hjl := jobLine_contains_path p t
  have hfilter := cronLoop_filter (t ++ " " ++ p) (" " ++ p)
      (fun l => !(strContains l p))
      (by simp [hjl])
      (by intro l hl; simp [strContains_path_of_pattern hl]) cur
  unfold setup_cron
  by_cases hhas : (cronLoop (t ++ " " ++ p) (" " ++ p) cur).2 = false
  · rw [if_pos hhas]
    simp only [List.filter_append, hfilter]
    simp [List.filter_cons, hjl]
  · rw [if_neg hhas]
    by_cases hmem : (t ++ " " ++ p) ∈ (cronLoop (t ++ " " ++ p) (" " ++ p) cur).1
    · rw [if_pos hmem]
      exact hfilter
    · rw [if_neg hmem]
      exact hfilter

/-! ## The external world: cron table, files -/

/-- External state touched by the scheduler: the stdout of `crontab -l`
(`none` when the cron tool itself fails), and the filesystem as a
path-to-content association list (plist files, the Windows batch file). -/
structure World where
  cron : Option String
  files : List (String × String)
deriving DecidableEq

/-- Look up a file's content by path (`none` = the file does not exist). -/
def findFile : List (String × String) → String → Option String
  | [], _ => none
  | e :: rest, p => if e.1 = p then some e.2 else findFile rest p

def getFile (w : World) (p : String) : Option String := findFile w.files p

/-- Write a file: overwrite any entry at the path, else add a new one. -/
def setFile : List (String × String) → String → String → List (String × String)
  | [], p, c => [(p, c)]
  | e :: rest, p, c => if e.1 = p then (p, c) :: setFile rest p c
                       else e :: setFile rest p c

theorem findFile_setFile_self (fs : List (String × String)) (p c : String) :
    findFile (setFile fs p c) p = some c := by
  induction fs with
  | nil => simp [setFile, findFile]
  | cons e rest ih =>
    by_cases he : e.1 = p
    · simp [setFile, findFile, he, ih]
    · simp [setFile, findFile, he, ih]

theorem findFile_setFile_ne (fs : List (String × String)) (p c q : String)
    (h : p ≠ q) :
    findFile (setFile fs p c) q = findFile fs q := by
  induction fs with
  | nil => simp [setFile, findFile, h]
  | cons e rest ih =>
    by_cases he : e.1 = p
    · simp [setFile, findFile, he, h, ih]
    · by_cases heq : e.1 = q
      · simp [setFile, findFile, he, heq, Ne.symm h]
      · simp [setFile, findFile, he, heq, ih]

/-! ## The launchd reconciler (`setup_launchd`, scheduler.py lines 96-193) -/

/-- The plist content rendered by `setup_launchd` (the f-string at
scheduler.py lines 113-148), with `script_dir = dirname(script_path)`,
`log_dir = join(script_dir, "logs")` (created by `ensure_log_directory`)
and `scheduler_path = join(dirname(script_path), "aranet4_data_saver")`. -/
def plist_content (script_path label : String) : String :=
  let script_dir := dirname script_path
  let log_dir := joinPath script_dir "logs"
  let scheduler_path := joinPath (dirname script_path) "aranet4_data_saver"
  "<?xml version=\"1.0\" encoding=\"UTF-8\"?>\n" ++
  "<!DOCTYPE plist PUBLIC \"-//Apple//DTD PLIST 1.0//EN\" \"http://www.apple.com/DTDs/PropertyList-1.0.dtd\">\n" ++
  "<plist version=\"1.0\">\n" ++
  "<dict>\n" ++
  "    <key>Label</key>\n" ++
  "    <string>" ++ label ++ "</string>\n" ++
  "    <key>ProgramArguments</key>\n" ++
  "    <array>\n" ++
  "        <string>" ++ scheduler_path ++ "</string>\n" ++
  "    </array>\n" ++
  "    <key>StartCalendarInterval</key>\n" ++
  "    <dict>\n" ++
  "        <key>Hour</key>\n" ++
  "        <integer>0</integer>\n" ++
  "        <key>Minute</key>\n" ++
  "        <integer>0</integer>\n" ++
  "    </dict>\n" ++
  "    <key>RunAtLoad</key>\n" ++
  "    <false/>\n" ++
  "    <key>StandardErrorPath</key>\n" ++
  "    <string>" ++ log_dir ++ "/launchd_error.log</string>\n" ++
  "    <key>StandardOutPath</key>\n" ++
  "    <string>" ++ log_dir ++ "/launchd_output.log</string>\n" ++
  "    <key>ExitTimeOut</key>\n" ++
  "    <integer>900</integer>\n" ++
  "    <key>TimeOut</key>\n" ++
  "    <integer>900</integer>\n" ++
  "    <key>ProcessType</key>\n" ++
  "    <string>Background</string>\n" ++
  "    <key>ServiceDescription</key>\n" ++
  "    <string>Aranet4 Data Saver</string>\n" ++
  "    <key>Nice</key>\n" ++
  "    <integer>10</integer>\n" ++
  "</dict>\n" ++
  "</plist>\n"

/-- The per-label plist path,
`os.path.expanduser(f"~/Library/LaunchAgents/\x7blabel\x7d.plist")`
(the `~` is kept unexpanded: paths are opaque strings in the model). -/
def plistPath (label : String) : String :=
  "~/Library/LaunchAgents/" ++ label ++ ".plist"

/-- The legacy plist path checked by the probe for backward
compatibility (scheduler.py lines 312-314). -/
def old_plist_path : String :=
  "~/Library/LaunchAgents/com.user.aranet4.datasaver.plist"

/-- Outcome of a `setup_launchd` run, per its printed messages:
`noop` = "already exists with the correct configuration",
`created`/`updated` = the success messages after `launchctl load`,
`loadFailed` = "Error loading launchd service" (the caught
`CalledProcessError` from `launchctl load`). -/
inductive LaunchdOutcome
  | noop
  | created
  | updated
  | loadFailed
deriving DecidableEq

/-- Result of one `setup_launchd` run: the new world, whether
`launchctl unload` / `launchctl load` were invoked, whether the plist
file was (re)written, and the reported outcome. -/
structure LaunchdRun where
  world : World
  unloadCalled : Bool
  loadCalled : Bool
  wroteFile : Bool
  outcome : LaunchdOutcome
deriving DecidableEq

/-- `setup_launchd(script_path, label)`, scheduler.py lines 150-193.
`loadOk` is the oracle for whether `launchctl load` exits 0.  If the
plist file exists with content equal (after `strip()`) to the rendered
content, the function returns at line 166 with no write and no
service-manager call; if it exists with different content, `launchctl
unload` is attempted (best-effort), the file is rewritten and `launchctl
load` runs; if it is absent, the file is written and `launchctl load`
runs.  A load failure is caught and reported, the written file stays. -/
def setup_launchd (script_path label : String) (loadOk : Bool) (w : World) : LaunchdRun :=
  let content := plist_content script_path label
  let path := plistPath label
  match getFile w path with
  | some existing =>
    if pyStrip existing = pyStrip content then
      ⟨w, false, false, false, .noop⟩
    else
      ⟨{ w with files := setFile w.files path content }, true, true, true,
        if loadOk then .updated else .loadFailed⟩
  | none =>
    ⟨{ w with files := setFile w.files path content }, false, true, true,
      if loadOk then .created else .loadFailed⟩

/-! ## The backend probe (`detect_existing_scheduler`, lines 287-322) -/

/-- The probe's answer: which backends appear to already manage the job. -/
structure Existing where
  cron : Bool
  launchd : Bool
  windows : Bool
deriving DecidableEq

/-- `detect_existing_scheduler()`, scheduler.py lines 287-322.
`script_dir` models `Path(__file__).resolve().parent`.  The probe only
performs reads (`crontab -l` with captured output, `os.path.exists`), so
the world is returned unchanged; a failing cron tool (`w.cron = none`,
the `except Exception: pass` at lines 305-306) leaves `has_cron` false.
On Darwin the launchd backend is present when either the canonical or
the legacy plist path exists. -/
def detect_existing_scheduler (system script_dir : String) (w : World) :
    World × Existing :=
  let scheduler_path := joinPath script_dir "aranet4_data_saver"
  let batch_path := joinPath script_dir "aranet4_data_saver.bat"
  let has_cron : Bool :=
    (system = "Darwin" ∨ system = "Linux") &&
      (match w.cron with
       | some out => strContains out scheduler_path
       | none => false)
  let has_launchd : Bool :=
    (system = "Darwin") &&
      ((getFile w (plistPath "com.aranet4.datasaver")).isSome
        || (getFile w old_plist_path).isSome)
  let has_windows : Bool := (getFile w batch_path).isSome
  (w, ⟨has_cron, has_launchd, has_windows⟩)

/-! ## Claim theorems for the manifest reconciler and the probe -/

/-- C6.  Manifest no-op: when the existing plist file's content, after
`strip()`, equals the stripped rendered content, `setup_launchd` returns
with the world unchanged, no file written, and neither `launchctl
unload` nor `launchctl load` invoked. -/
theorem launchd_noop_when_identical (script_path label : String) (loadOk : Bool)
    (w : World) (c : String)
    (hf : getFile w (plistPath label) = some c)
    (heq : pyStrip c = pyStrip (plist_content script_path label)) :
    setup_launchd script_path label loadOk w = ⟨w, false, false, false, .noop⟩ := by
  simp only [setup_launchd, hf]
  rw [if_pos heq]

set_option maxRecDepth 8192 in
/-- C6 (witness). -/
theorem launchd_noop_when_identical_witness :
    (getFile
        ⟨none, [(plistPath "com.aranet4.datasaver",
                 plist_content "/opt/app/aranet4_data_saver" "com.aranet4.datasaver")]⟩
        (plistPath "com.aranet4.datasaver")
      = some (plist_content "/opt/app/aranet4_data_saver" "com.aranet4.datasaver")) ∧
    pyStrip (plist_content "/opt/app/aranet4_data_saver" "com.aranet4.datasaver")
      = pyStrip (plist_content "/opt/app/aranet4_data_saver" "com.aranet4.datasaver") ∧
    setup_launchd "/opt/app/aranet4_data_saver" "com.aranet4.datasaver" true
        ⟨none, [(plistPath "com.aranet4.datasaver",
                 plist_content "/opt/app/aranet4_data_saver" "com.aranet4.datasaver")]⟩
      = ⟨⟨none, [(plistPath "com.aranet4.datasaver",
                  plist_content "/opt/app/aranet4_data_saver" "com.aranet4.datasaver")]⟩,
         false, false, false, .noop⟩ :=
  ⟨rfl, rfl,
   launchd_noop_when_identical "/opt/app/aranet4_data_saver" "com.aranet4.datasaver"
     true _ _ rfl rfl⟩

/-- C7.  Manifest partial-failure contract: whenever `setup_launchd`
writes the plist file (the existing content, if any, differs after
`strip()`) and `launchctl load` then fails, the run reports the distinct
activation-failure outcome (`loadFailed`, the caught
`CalledProcessError`, separate from any write error, which the source
does not catch at all) and the plist file remains on disk with the newly
rendered content — the write is not rolled back. -/
theorem launchd_partial_failure (script_path label : String) (w : World)
    (hdiff : ∀ c, getFile w (plistPath label) = some c →
        pyStrip c ≠ pyStrip (plist_content script_path label)) :
    (setup_launchd script_path label false w).outcome = .loadFailed ∧
    (setup_launchd script_path label false w).loadCalled = true ∧
    (setup_launchd script_path label false w).wroteFile = true ∧
    getFile (setup_launchd script_path label false w).world (plistPath label)
      = some (plist_content script_path label) := by
  cases hf : getFile w (plistPath label) with
  | none =>
    simp only [setup_launchd, hf]
    refine ⟨rfl, trivial, trivial, ?_⟩
    exact findFile_setFile_self w.files (plistPath label)
      (plist_content script_path label)
  | some c =>
    have hne := hdiff c hf
    simp only [setup_launchd, hf]
    rw [if_neg hne]
    refine ⟨rfl, rfl, rfl, ?_⟩
    exact findFile_setFile_self w.files (plistPath label)
      (plist_content script_path label)

/-- C7 (witness): on a world with no plist file, the load failure is
reported as the activation outcome and the file stays written. -/
theorem launchd_partial_failure_witness :
    (∀ c, getFile ⟨none, []⟩ (plistPath "com.aranet4.datasaver") = some c →
        pyStrip c ≠ pyStrip (plist_content "/opt/app/aranet4_data_saver" "com.aranet4.datasaver")) ∧
    ((setup_launchd "/opt/app/aranet4_data_saver" "com.aranet4.datasaver" false ⟨none, []⟩).outcome
        = .loadFailed ∧
     (setup_launchd "/opt/app/aranet4_data_saver" "com.aranet4.datasaver" false ⟨none, []⟩).loadCalled
        = true ∧
     (setup_launchd "/opt/app/aranet4_data_saver" "com.aranet4.datasaver" false ⟨none, []⟩).wroteFile
        = true ∧
     getFile (setup_launchd "/opt/app/aranet4_data_saver" "com.aranet4.datasaver" false
         ⟨none, []⟩).world (plistPath "com.aranet4.datasaver")
        = some (plist_content "/opt/app/aranet4_data_saver" "com.aranet4.datasaver")) :=
  ⟨fun _c hc => Option.noConfusion hc,
   launchd_partial_failure "/opt/app/aranet4_data_saver" "com.aranet4.datasaver"
     ⟨none, []⟩ (fun _c hc => Option.noConfusion hc)⟩

/-- C8.  Probe tolerance: `detect_existing_scheduler` performs only
reads, so it returns the world unchanged for every input; and when the
cron tool fails (the probe's `except Exception: pass`), the cron backend
is reported as not present instead of the probe failing.  The probe is a
total function: it produces a result on every world. -/
theorem probe_read_only_and_tolerant (system script_dir : String) (w : World) :
    (detect_existing_scheduler system script_dir w).1 = w ∧
    (detect_existing_scheduler system script_dir { w with cron := none }).2.cron
      = false := by
  constructor
  · rfl
  · simp [detect_existing_scheduler]

/-- C10.  Legacy-manifest asymmetry: `setup_launchd` with the canonical
label only ever touches the canonical plist path, so a file at the
legacy path survives every reconcile unchanged, and the probe (which
also checks the legacy path on Darwin) keeps reporting the launchd
backend as present afterwards. -/
theorem legacy_plist_preserved (script_path script_dir : String) (loadOk : Bool)
    (w : World) (c : String)
    (hleg : getFile w old_plist_path = some c) :
    getFile (setup_launchd script_path "com.aranet4.datasaver" loadOk w).world
        old_plist_path = some c ∧
    (detect_existing_scheduler "Darwin" script_dir
        (setup_launchd script_path "com.aranet4.datasaver" loadOk w).world).2.launchd
      = true := by
  have hne : plistPath "com.aranet4.datasaver" ≠ old_plist_path := by decide
  have hkeep : getFile (setup_launchd script_path "com.aranet4.datasaver" loadOk w).world
      old_plist_path = some c := by
    cases hf : getFile w (plistPath "com.aranet4.datasaver") with
    | none =>
      simp only [setup_launchd, hf]
      show findFile (setFile w.files (plistPath "com.aranet4.datasaver")
        (plist_content script_path "com.aranet4.datasaver")) old_plist_path = some c
      rw [findFile_setFile_ne w.files (plistPath "com.aranet4.datasaver")
        (plist_content script_path "com.aranet4.datasaver") old_plist_path hne]
      exact hleg
    | some c0 =>
      simp only [setup_launchd, hf]
      by_cases heq : pyStrip c0 = pyStrip (plist_content script_path "com.aranet4.datasaver")
      · rw [if_pos heq]
        exact hleg
      · rw [if_neg heq]
        show findFile (setFile w.files (plistPath "com.aranet4.datasaver")
          (plist_content script_path "com.aranet4.datasaver")) old_plist_path = some c
        rw [findFile_setFile_ne w.files (plistPath "com.aranet4.datasaver")
          (plist_content script_path "com.aranet4.datasaver") old_plist_path hne]
        exact hleg
  refine ⟨hkeep, ?_⟩
  have hsome : (getFile (setup_launchd script_path "com.aranet4.datasaver" loadOk w).world
      old_plist_path).isSome = true := by
    rw [hkeep]; rfl
  simp [detect_existing_scheduler, hsome]

/-- C10 (witness). -/
theorem legacy_plist_preserved_witness :
    (getFile ⟨none, [(old_plist_path, "legacy content")]⟩ old_plist_path
      = some "legacy content") ∧
    (getFile (setup_launchd "/opt/app/aranet4_data_saver" "com.aranet4.datasaver" true
        ⟨none, [(old_plist_path, "legacy content")]⟩).world old_plist_path
      = some "legacy content" ∧
    (detect_existing_scheduler "Darwin" "/opt/app"
        (setup_launchd "/opt/app/aranet4_data_saver" "com.aranet4.datasaver" true
          ⟨none, [(old_plist_path, "legacy content")]⟩).world).2.launchd = true) :=
  ⟨by decide,
   legacy_plist_preserved "/opt/app/aranet4_data_saver" "/opt/app" true
     ⟨none, [(old_plist_path, "legacy content")]⟩ "legacy content" (by decide)⟩

/-! ## The Windows wrapper (`show_windows_instructions`, lines 196-284) -/

theorem strContains_append_left (a b pat : String)
    (h : strContains a pat = true) : strContains (a ++ b) pat = true := by
  rw [strContains_iff] at h ⊢
  obtain ⟨s, t, hst⟩ := h
  exact ⟨s, t ++ b.data, by rw [String.data_append, ← hst]; simp⟩

theorem strContains_append_right (a b pat : String)
    (h : strContains b pat = true) : strContains (a ++ b) pat = true := by
  rw [strContains_iff] at h ⊢
  obtain ⟨s, t, hst⟩ := h
  exact ⟨a.data ++ s, t, by rw [String.data_append, ← hst]; simp⟩

/-- The internal watchdog ceiling embedded in the generated batch file
(`timeout /t 600 /nobreak`, scheduler.py line 215): 600 seconds. -/
def batchTimeoutSeconds : Nat := 600

/-- The task-scheduler limit the printed instructions tell the user to
set ("Set it to 15 minutes ...", scheduler.py lines 265 and 282). -/
def taskSchedulerLimitMinutes : Nat := 15

/-- The wrapper batch file content rendered by
`show_windows_instructions` (the f-string at scheduler.py lines
209-225), as a function of `log_dir_windows`, `log_file`,
`sys.executable` and the script path. -/
def batch_content (log_dir_windows log_file sys_executable script_path : String) : String :=
  "@echo off\nREM Run the Aranet4 Data Saver with timeout protection\nif not exist \"" ++
  log_dir_windows ++
  "\" mkdir \"" ++
  log_dir_windows ++
  "\"\necho Starting Aranet4 Data Saver at %date% %time% > \"" ++
  log_file ++
  "\"\n\nREM Create timeout protection using Windows timeout command (10 minutes)\nstart /b \"\" cmd /c \"timeout /t 600 /nobreak > nul & taskkill /f /im python.exe /fi \"WINDOWTITLE eq Aranet4*\" > nul 2>&1\"\n\nREM Run the script in historical mode\n\"" ++
  sys_executable ++
  "\" \"" ++
  script_path ++
  "\" --historical\n\nif %ERRORLEVEL% equ 0 (\n    echo Run completed successfully at %date% %time% >> \"" ++
  log_file ++
  "\"\n) else (\n    echo Run failed with exit code %ERRORLEVEL% at %date% %time% >> \"" ++
  log_file ++
  "\"\n)\n"

/-- The instruction lines printed when the batch file already existed
(scheduler.py lines 257-266), as a function of the batch path. -/
def windows_update_instructions (batch_path : String) : List String :=
  ["\nTo update your existing Windows Task Scheduler task:",
   "-----------------------------------------------",
   "1. Open Task Scheduler (search for \x27Task Scheduler\x27 in the Start menu)",
   "2. Find your existing \x27Aranet4 Data Saver\x27 task in the Task Scheduler Library",
   "3. Right-click on the task and select \x27Properties\x27",
   "4. Verify the batch file path points to the correct location:",
   "   " ++ batch_path,
   "5. Go to the \x27Settings\x27 tab and check \x27Stop the task if it runs longer than:\x27",
   "6. Set it to 15 minutes (longer than the internal batch file timeout)",
   "7. Click \x27OK\x27 to save the changes"]

/-- The instruction lines printed on first-time setup (scheduler.py
lines 268-284), as a function of the batch path and the script dir. -/
def windows_new_instructions (batch_path script_dir : String) : List String :=
  ["\nTo set up automatic execution on Windows:",
   "----------------------------------------",
   "1. Open Task Scheduler (search for \x27Task Scheduler\x27 in the Start menu)",
   "2. Click \x27Create Basic Task\x27 in the right panel",
   "3. Name it \x27Aranet4 Data Saver\x27 and add a description",
   "4. Set the trigger to \x27Daily\x27 and choose a time",
   "5. For the action, select \x27Start a program\x27",
   "6. Browse to select the batch file: " ++ batch_path,
   "7. In \x27Start in\x27, enter: " ++ script_dir,
   "8. After completing the wizard, right-click on the created task and select \x27Properties\x27",
   "9. Go to the \x27Settings\x27 tab and check \x27Stop the task if it runs longer than:\x27",
   "10. Set it to 15 minutes (longer than the batch file timeout to allow for proper cleanup)",
   "11. Click \x27OK\x27 to save the changes"]

/-- Result of `show_windows_instructions`: the new world, whether the
batch file was (re)written, and which instruction variant was printed. -/
structure WindowsRun where
  world : World
  wrote : Bool
  instructions : List String
deriving DecidableEq

/-- `show_windows_instructions(script_path)`, scheduler.py lines
196-284: compare the existing batch file (if any) with the rendered
content after `strip()`, rewrite it only when different or absent, and
print the "update" instruction variant when the file existed before the
call, the "first time" variant otherwise. -/
def show_windows_instructions (script_path sys_executable : String) (w : World) : WindowsRun :=
  let script_dir := dirname script_path
  let log_dir := joinPath script_dir "logs"
  let batch_path := joinPath script_dir "aranet4_data_saver.bat"
  let log_file := pyReplaceSlash (joinPath log_dir "scheduler.log")
  let log_dir_windows := pyReplaceSlash log_dir
  let content := batch_content log_dir_windows log_file sys_executable script_path
  let batch_exists := (getFile w batch_path).isSome
  let should_update : Bool :=
    match getFile w batch_path with
    | some existing => decide (pyStrip existing ≠ pyStrip content)
    | none => true
  let w1 := if should_update then { w with files := setFile w.files batch_path content }
            else w
  ⟨w1, should_update,
   if batch_exists then windows_update_instructions batch_path
   else windows_new_instructions batch_path script_dir⟩

set_option maxRecDepth 65536 in
/-- C9.  Watchdog ceiling ordering: for every rendering environment the
generated batch file embeds the 600-second internal watchdog, both
instruction variants recommend the 15-minute task-scheduler limit, and
600 seconds is strictly below 15 minutes. -/
theorem watchdog_below_instruction_limit
    (log_dir_windows log_file sys_executable script_path batch_path script_dir : String) :
    strContains (batch_content log_dir_windows log_file sys_executable script_path)
        ("timeout /t " ++ toString batchTimeoutSeconds ++ " /nobreak") = true ∧
    ((windows_update_instructions batch_path).any
        (fun l => strContains l
          ("Set it to " ++ toString taskSchedulerLimitMinutes ++ " minutes"))) = true ∧
    ((windows_new_instructions batch_path script_dir).any
        (fun l => strContains l
          ("Set it to " ++ toString taskSchedulerLimitMinutes ++ " minutes"))) = true ∧
    batchTimeoutSeconds < taskSchedulerLimitMinutes * 60 := by
  refine ⟨?_, ?_, ?_, by decide⟩
  · unfold batch_content
    apply strContains_append_left
    apply strContains_append_left
    apply strContains_append_left
    apply strContains_append_left
    apply strContains_append_left
    apply strContains_append_left
    apply strContains_append_left
    apply strContains_append_left
    apply strContains_append_right
    decide
  · simp only [windows_update_instructions, List.any_cons, List.any_nil]
    rw [Bool.or_eq_true]
    right
    rw [Bool.or_eq_true]
    right
    rw [Bool.or_eq_true]
    right
    rw [Bool.or_eq_true]
    right
    rw [Bool.or_eq_true]
    right
    rw [Bool.or_eq_true]
    right
    rw [Bool.or_eq_true]
    right
    rw [Bool.or_eq_true]
    right
    rw [Bool.or_eq_true]
    left
    decide
  · simp only [windows_new_instructions, List.any_cons, List.any_nil]
    rw [Bool.or_eq_true]
    right
    rw [Bool.or_eq_true]
    right
    rw [Bool.or_eq_true]
    right
    rw [Bool.or_eq_true]
    right
    rw [Bool.or_eq_true]
    right
    rw [Bool.or_eq_true]
    right
    rw [Bool.or_eq_true]
    right
    rw [Bool.or_eq_true]
    right
    rw [Bool.or_eq_true]
    right
    rw [Bool.or_eq_true]
    right
    rw [Bool.or_eq_true]
    right
    rw [Bool.or_eq_true]
    left
    decide

/-! ## The orchestrator (`main`, scheduler.py lines 325-440) -/

/-- The parsed CLI arguments of `main` that matter to the model. -/
structure Args where
  time : String
  method : String
  forceUpdate : Bool
deriving DecidableEq

/-- How a `main` run ends: `exited code w` models `sys.exit(code)` (the
world at that point), `completed w` models falling through to the final
prints. -/
inductive MainResult
  | exited (code : Nat) (w : World)
  | completed (w : World)
deriving DecidableEq

/-- `existing[m]` for the three dictionary keys. -/
def backendFlag (e : Existing) (m : String) : Bool :=
  if m = "cron" then e.cron
  else if m = "launchd" then e.launchd
  else if m = "windows" then e.windows
  else false

/-- `[m for m, exists in existing.items() if exists and m != method]`
(scheduler.py line 383), in the dictionary's insertion order. -/
def otherExisting (e : Existing) (method : String) : List String :=
  ["cron", "launchd", "windows"].filter (fun m => backendFlag e m && m != method)

/-- The `auto` method-selection policy (scheduler.py lines 364-380);
`none` models the `sys.exit(1)` on an unsupported platform. -/
def chooseMethod (system argMethod : String) (e : Existing) : Option String :=
  if argMethod = "auto" then
    if system = "Darwin" then
      some (if e.launchd then "launchd" else if e.cron then "cron" else "launchd")
    else if system = "Linux" then some "cron"
    else if system = "Windows" then some "windows"
    else none
  else some argMethod

/-- `setup_cron` acting on the world: read `crontab -l` output (the
caught `CalledProcessError` yields an empty table), run the reconciler
on its lines, and persist via `crontab -` only when the reconciler did
not return early. -/
def setup_cron_world (script_path time_str : String) (w : World) : World :=
  let current := pySplitlines (w.cron.getD "")
  let r := setup_cron script_path time_str current
  if r.wrote then { w with cron := some (String.intercalate "\n" r.lines ++ "\n") }
  else w

def setup_launchd_world (script_path : String) (loadOk : Bool) (w : World) : World :=
  (setup_launchd script_path "com.aranet4.datasaver" loadOk w).world

def show_windows_world (script_path sys_executable : String) (w : World) : World :=
  (show_windows_instructions script_path sys_executable w).world

/-- Invoking the selected method's reconciler (scheduler.py lines
399-404). -/
def applyMethod (method _system script_dir time sys_executable : String)
    (loadOk : Bool) (w : World) : World :=
  let scheduler_path := joinPath script_dir "aranet4_data_saver"
  let aranet_script_path := joinPath script_dir "aranet_data_saver.py"
  if method = "cron" then setup_cron_world scheduler_path time w
  else if method = "launchd" then setup_launchd_world scheduler_path loadOk w
  else if method = "windows" then show_windows_world aranet_script_path sys_executable w
  else w

/-- The forced-convergence pass (scheduler.py lines 407-424): every
other method that is either already present or plausible for the host
OS, applied only when it makes sense on this OS. -/
def forceOthers (system script_dir time sys_executable : String) (loadOk : Bool)
    (method : String) (e : Existing) (w : World) : World :=
  let other_methods := ["cron", "launchd", "windows"].filter
    (fun m => m != method &&
      (backendFlag e m ||
        (system == "Darwin" || system == "Linux" || system == "Windows")))
  other_methods.foldl (fun w m =>
    if m = "cron" ∧ (system = "Darwin" ∨ system = "Linux") then
      setup_cron_world (joinPath script_dir "aranet4_data_saver") time w
    else if m = "launchd" ∧ system = "Darwin" then
      setup_launchd_world (joinPath script_dir "aranet4_data_saver") loadOk w
    else if m = "windows" ∧ system = "Windows" then
      show_windows_world (joinPath script_dir "aranet_data_saver.py") sys_executable w
    else w) w

/-- `main()`, scheduler.py lines 325-440: probe, select the method,
run the conflict check (prompting with `choice` when other backends
exist and `--force-update` is absent; a decline is `sys.exit(0)` before
any reconciler runs), then apply the selected reconciler and, when
forcing, the other applicable ones.  `script_dir` models
`Path(__file__).resolve().parent`; `loadOk` is the `launchctl load`
oracle. -/
def main (system script_dir sys_executable : String) (args : Args)
    (choice : String) (loadOk : Bool) (w : World) : MainResult :=
  let existing := (detect_existing_scheduler system script_dir w).2
  match chooseMethod system args.method existing with
  | none => .exited 1 w
  | some method =>
    let other := otherExisting existing method
    let decision : Option Bool :=
      if other ≠ [] ∧ args.forceUpdate = false then
        if pyLower choice = "f" then some true
        else if pyLower choice = "y" ∨ pyLower choice = "yes" then some args.forceUpdate
        else none
      else some args.forceUpdate
    match decision with
    | none => .exited 0 w
    | some force =>
      let w1 := applyMethod method system script_dir args.time sys_executable loadOk w
      let w2 := if force then
          forceOthers system script_dir args.time sys_executable loadOk method existing w1
        else w1
      .completed w2

/-- C4.  Conflict cancellation atomicity: whenever other backends than
the selected one are detected as present, `--force-update` is absent,
and the lowered prompt response is none of "y", "yes", "f", `main` exits
with code 0 and the world is returned untouched — no reconciler ran and
no backend store was written. -/
theorem cancelled_on_decline (system script_dir sys_executable : String)
    (args : Args) (choice : String) (loadOk : Bool) (w : World) (method : String)
    (hm : chooseMethod system args.method
        (detect_existing_scheduler system script_dir w).2 = some method)
    (hforce : args.forceUpdate = false)
    (hother : otherExisting (detect_existing_scheduler system script_dir w).2 method ≠ [])
    (hf : pyLower choice ≠ "f")
    (hy : pyLower choice ≠ "y")
    (hyes : pyLower choice ≠ "yes") :
    main system script_dir sys_executable args choice loadOk w = .exited 0 w := by
  simp only [main, hm]
  rw [if_pos ⟨hother, hforce⟩, if_neg hf, if_neg (not_or.mpr ⟨hy, hyes⟩)]

/-- C4 (witness): on Linux with auto selection, a stale Windows batch
file makes the probe report a conflicting backend; a "n" response
cancels with exit code 0 and an unchanged world. -/
theorem cancelled_on_decline_witness :
    (chooseMethod "Linux" "auto"
        (detect_existing_scheduler "Linux" "/app"
          ⟨none, [("/app/aranet4_data_saver.bat", "old")]⟩).2 = some "cron") ∧
    ((⟨"0 0 * * *", "auto", false⟩ : Args).forceUpdate = false) ∧
    (otherExisting (detect_existing_scheduler "Linux" "/app"
        ⟨none, [("/app/aranet4_data_saver.bat", "old")]⟩).2 "cron" ≠ []) ∧
    pyLower "n" ≠ "f" ∧ pyLower "n" ≠ "y" ∧ pyLower "n" ≠ "yes" ∧
    main "Linux" "/app" "/usr/bin/python3" ⟨"0 0 * * *", "auto", false⟩ "n" true
        ⟨none, [("/app/aranet4_data_saver.bat", "old")]⟩
      = .exited 0 ⟨none, [("/app/aranet4_data_saver.bat", "old")]⟩ :=
  ⟨by decide, rfl, by decide, by decide, by decide, by decide,
   cancelled_on_decline "Linux" "/app" "/usr/bin/python3" ⟨"0 0 * * *", "auto", false⟩
     "n" true ⟨none, [("/app/aranet4_data_saver.bat", "old")]⟩ "cron"
     (by decide) rfl (by decide) (by decide) (by decide) (by decide)⟩
